import Mathlib

/-!
Verification of the design-token table declared in
`src/frontend/tailwind.config.js`.

The file exports a single static configuration object.  We embed it as a
JSON-like value (`CVal`): JS object literals become association lists of
string keys and values, JS arrays become lists, JS strings and booleans
become `String` and `Bool`, and the plugin reference `require("...")`
becomes the constructor `CVal.plugin` carrying the required package name.
`moduleExports` below mirrors the `module.exports` literal of the source
field by field, in source order, via one named definition per object
literal of the source.
-/

/-- JSON-like values of the configuration object.  `plugin n` stands for
the value `require(n)` appearing in the plugins array of the source. -/
inductive CVal where
  | str (s : String)
  | bool (b : Bool)
  | list (xs : List CVal)
  | obj (kvs : List (String × CVal))
  | plugin (n : String)

/-- Association-list lookup of a key in an embedded object literal,
first hit wins, exactly as JS property lookup on a duplicate-free
object literal. -/
def lookupStr (o : List (String × CVal)) (k : String) : Option CVal :=
  (o.find? (fun kv => kv.1 == k)).map (fun kv => kv.2)

/-- Property access `v[k]` on an embedded value: defined on object
literals, `none` on every other shape. -/
def CVal.get : CVal → String → Option CVal
  | .obj kvs, k => lookupStr kvs k
  | _, _ => none

/-- Path access `v[k1][k2]...` on an embedded value. -/
def CVal.getPath : CVal → List String → Option CVal
  | v, [] => some v
  | v, k :: ks =>
    match v.get k with
    | some w => CVal.getPath w ks
    | none => none

/-- The string carried by an embedded value when it is a string. -/
def CVal.asStr : CVal → Option String
  | .str s => some s
  | _ => none

/-- The `content` array of the source: the four glob patterns, in order
(lines 4-9 of `tailwind.config.js`). -/
def contentGlobs : List String :=
  [ ("./pages/**/*.\x7bjs,jsx\x7d"),
    ("./components/**/*.\x7bjs,jsx\x7d"),
    ("./app/**/*.\x7bjs,jsx\x7d"),
    ("./src/**/*.\x7bjs,jsx\x7d") ]

/-- The `darkMode` value of the source, line 3: `["class"]`. -/
def darkModeVal : CVal := .list [.str ("class")]

/-- The `theme.container.screens` object literal, lines 15-17. -/
def screensKVs : List (String × CVal) :=
  [ (("2xl"), .str ("1400px")) ]

/-- The `theme.container` object literal, lines 12-18. -/
def containerKVs : List (String × CVal) :=
  [ (("center"), .bool true),
    (("padding"), .str ("2rem")),
    (("screens"), .obj screensKVs) ]

/-- The `theme.extend.fontFamily` object literal, lines 20-24. -/
def fontFamilyKVs : List (String × CVal) :=
  [ (("heading"), .list [.str ("Outfit"), .str ("sans-serif")]),
    (("body"), .list [.str ("DM Sans"), .str ("sans-serif")]),
    (("mono"), .list [.str ("JetBrains Mono"), .str ("monospace")]) ]

/-- The `theme.extend.colors` object literal, lines 25-59. -/
def colorsKVs : List (String × CVal) :=
  [ (("border"), .str ("#E7E5E4")),
    (("input"), .str ("#E7E5E4")),
    (("ring"), .str ("#064E3B")),
    (("background"), .str ("#FAFAF9")),
    (("foreground"), .str ("#1C1917")),
    (("primary"), .obj [ (("DEFAULT"), .str ("#064E3B")),
                         (("foreground"), .str ("#FFFFFF")) ]),
    (("secondary"), .obj [ (("DEFAULT"), .str ("#FAFAF9")),
                           (("foreground"), .str ("#1C1917")) ]),
    (("accent"), .obj [ (("DEFAULT"), .str ("#D9F99D")),
                        (("foreground"), .str ("#365314")) ]),
    (("muted"), .obj [ (("DEFAULT"), .str ("#F5F5F4")),
                       (("foreground"), .str ("#57534E")) ]),
    (("destructive"), .obj [ (("DEFAULT"), .str ("#EF4444")),
                             (("foreground"), .str ("#FFFFFF")) ]),
    (("card"), .obj [ (("DEFAULT"), .str ("#FFFFFF")),
                      (("foreground"), .str ("#1C1917")) ]),
    (("popover"), .obj [ (("DEFAULT"), .str ("#FFFFFF")),
                         (("foreground"), .str ("#1C1917")) ]) ]

/-- The `theme.extend.borderRadius` object literal, lines 60-64. -/
def borderRadiusKVs : List (String × CVal) :=
  [ (("lg"), .str ("0.5rem")),
    (("md"), .str ("0.375rem")),
    (("sm"), .str ("0.125rem")) ]

/-- The `theme.extend.keyframes` object literal, lines 65-74. -/
def keyframesKVs : List (String × CVal) :=
  [ (("accordion-down"), .obj [
      (("from"), .obj [ (("height"), .str ("0")) ]),
      (("to"), .obj [ (("height"), .str ("var(--radix-accordion-content-height)")) ]) ]),
    (("accordion-up"), .obj [
      (("from"), .obj [ (("height"), .str ("var(--radix-accordion-content-height)")) ]),
      (("to"), .obj [ (("height"), .str ("0")) ]) ]) ]

/-- The `theme.extend.animation` object literal, lines 75-78. -/
def animationKVs : List (String × CVal) :=
  [ (("accordion-down"), .str ("accordion-down 0.2s ease-out")),
    (("accordion-up"), .str ("accordion-up 0.2s ease-out")) ]

/-- The `theme.extend` object literal, lines 19-79. -/
def extendKVs : List (String × CVal) :=
  [ (("fontFamily"), .obj fontFamilyKVs),
    (("colors"), .obj colorsKVs),
    (("borderRadius"), .obj borderRadiusKVs),
    (("keyframes"), .obj keyframesKVs),
    (("animation"), .obj animationKVs) ]

/-- The `theme` object literal, lines 11-80. -/
def themeKVs : List (String × CVal) :=
  [ (("container"), .obj containerKVs),
    (("extend"), .obj extendKVs) ]

/-- The `plugins` array, line 81: `[require("tailwindcss-animate")]`. -/
def pluginsList : List CVal := [ .plugin ("tailwindcss-animate") ]

/-- The top-level object literal assigned to `module.exports`,
lines 2-82. -/
def topKVs : List (String × CVal) :=
  [ (("darkMode"), darkModeVal),
    (("content"), .list (contentGlobs.map CVal.str)),
    (("prefix"), .str ("")),
    (("theme"), .obj themeKVs),
    (("plugins"), .list pluginsList) ]

/-- The configuration object exported by `src/frontend/tailwind.config.js`. -/
def moduleExports : CVal := .obj topKVs

/-- The list of keys of an embedded object literal. -/
def CVal.keys : CVal → List String
  | .obj kvs => kvs.map Prod.fst
  | _ => []

/-- Whether a character code is an ASCII hexadecimal digit
(0-9, A-F, a-f). -/
def isHexDigitNat (n : Nat) : Bool :=
  (48 ≤ n && n ≤ 57) || (65 ≤ n && n ≤ 70) || (97 ≤ n && n ≤ 102)

/-- Whether a string is a valid 6-digit RGB hex color: a hash sign
followed by exactly six hexadecimal digits. -/
def isHex6 (s : String) : Bool :=
  match s.toList with
  | h :: rest =>
    h == ('#') && rest.length == 6 && rest.all (fun c => isHexDigitNat c.toNat)
  | [] => false

/-- Splits a character list at every occurrence of the separator, the
separators themselves dropped; mirrors `String.splitOn` on single-character
separators (in particular, the empty input yields one empty group). -/
def splitOnChar (sep : Char) : List Char → List (List Char)
  | [] => [[]]
  | c :: rest =>
    if c == sep then [] :: splitOnChar sep rest
    else
      match splitOnChar sep rest with
      | [] => [[c]]
      | g :: gs => (c :: g) :: gs

/-- Whether the character list ends with the given suffix. -/
def charsEndWith (cs suf : List Char) : Bool :=
  cs.reverse.take suf.length == suf.reverse

/-- Whether the character list starts with the given prefix segment. -/
def charsStartWith (cs seg : List Char) : Bool :=
  cs.take seg.length == seg

/-- Reads a string of decimal digits as a natural number; `none` when a
character is not a digit.  The empty list reads as 0, as the integer
or fractional part of a CSS decimal literal may omit its digits. -/
def digitsVal (cs : List Char) : Option Nat :=
  cs.foldl
    (fun acc c =>
      acc.bind (fun n =>
        if c.isDigit then some (n * 10 + (c.toNat - 48)) else none))
    (some 0)

/-- Reads a CSS `rem` length such as `0.375rem` as an exact rational
number of rems (here 375/1000 = 3/8), `none` on any other shape.  A
literal with integer part `n`, fractional digits `f` and `k = f.length`
denotes the exact rational (n * 10^k + f) / 10^k. -/
def remToQ (s : String) : Option ℚ :=
  let cs := s.toList
  if charsEndWith cs [ ('r'), ('e'), ('m') ] then
    match splitOnChar ('.') (cs.dropLast.dropLast.dropLast) with
    | [i] => (digitsVal i).map (fun n => (n : ℚ))
    | [i, f] =>
      (digitsVal i).bind (fun n =>
        (digitsVal f).map (fun m =>
          Rat.divInt ((n * 10 ^ f.length + m : ℕ) : ℤ) ((10 ^ f.length : ℕ) : ℤ)))
    | _ => none
  else none


/-- The keyframe name referenced by a CSS animation shorthand value:
its first space-separated word (`accordion-down 0.2s ease-out`
references the keyframe named `accordion-down`). -/
def animRefName (s : String) : String :=
  match splitOnChar (' ') s.toList with
  | [] => ("")
  | w :: _ => String.mk w

/-- Whether every animation binding in `anim` references a keyframe name
declared in `kf`, each binding being a string shorthand. -/
def animationRefsOk (anim kf : List (String × CVal)) : Bool :=
  anim.all (fun kv =>
    match kv.2.asStr with
    | some s => (kf.map Prod.fst).contains (animRefName s)
    | none => false)

/-- The file extensions the front-end build scans for class usage. -/
def recognizedExtensions : List String :=
  [ ("js"), ("jsx"), ("ts"), ("tsx") ]

/-- Whether a glob path segment is a recognized file-extension wildcard:
either `*.\x7be1,e2,...\x7d` with every listed extension recognized, or
`*.e` with `e` recognized. -/
def isRecognizedExtWildcard (seg : List Char) : Bool :=
  (charsStartWith seg [ ('*'), ('.'), ('\x7b') ] &&
    charsEndWith seg [ ('\x7d') ] &&
    ((splitOnChar (',') ((seg.drop 3).dropLast)).all
      (fun e => recognizedExtensions.contains (String.mk e))))
  || (charsStartWith seg [ ('*'), ('.') ] &&
      recognizedExtensions.contains (String.mk (seg.drop 2)))

/-- Whether a glob pattern ends in a recognized file-extension wildcard:
its final `/`-separated path segment is one. -/
def endsInExtWildcard (g : String) : Bool :=
  match (splitOnChar (('/')) g.toList).getLast? with
  | some seg => isRecognizedExtWildcard seg
  | none => false


/-- The dark-mode strategy tokens the style-generation tool recognizes:
a selector-based strategy (`class`, optionally written as `["class"]` or
with a custom selector appended) or the media-query strategy. -/
def strategyTokens : List String :=
  [ ("media"), ("class"), ("selector") ]

/-- Whether an embedded value is a dark-mode strategy token: a bare
recognized strategy name, or an array headed by one. -/
def isStrategyToken : CVal → Bool
  | .str s => strategyTokens.contains s
  | .list (CVal.str s :: _) => strategyTokens.contains s
  | _ => false

/-- Whether an embedded value is an external plugin reference
(a `require(...)` in the source). -/
def isPluginRef : CVal → Bool
  | .plugin _ => true
  | _ => false

/-- Whether a string is a CSS length usable as padding or a breakpoint:
an exact `rem` quantity or a pixel quantity. -/
def isLength (s : String) : Bool :=
  (remToQ s).isSome ||
    (charsEndWith s.toList [ ('p'), ('x') ] &&
      (digitsVal (s.toList.dropLast.dropLast)).isSome)


/-- Whether a key list has no duplicates. -/
def nodupKeys : List String → Bool
  | [] => true
  | k :: ks => !(ks.contains k) && nodupKeys ks

/-- Every object literal occurring in an embedded value, outermost
first, down to the given nesting depth.  The configuration object is
finitely deep, so a large enough fuel collects every object literal in
it; that the chosen fuel loses nothing is checked by the stability of
the collection under doubling the fuel. -/
def objsInFuel : Nat → CVal → List (List (String × CVal))
  | 0, _ => []
  | _ + 1, .str _ => []
  | _ + 1, .bool _ => []
  | _ + 1, .plugin _ => []
  | n + 1, .list xs => (xs.map (objsInFuel n)).flatten
  | n + 1, .obj kvs => kvs :: (kvs.map (fun kv => objsInFuel n kv.2)).flatten

/-- Whether lookup on an object literal is total and unambiguous: its
keys are pairwise distinct and every declared key resolves to a value. -/
def objTotal (o : List (String × CVal)) : Bool :=
  nodupKeys (o.map Prod.fst) &&
    (o.map Prod.fst).all (fun k => (lookupStr o k).isSome)


/-- Whether a color role value satisfies the foreground-pairing rule:
if it declares a `foreground`, then it also declares a `DEFAULT`, and
both are valid 6-digit RGB hex strings. -/
def roleForegroundOk (v : CVal) : Bool :=
  match v.get ("foreground") with
  | none => true
  | some fg =>
    (match fg.asStr with
     | some s => isHex6 s
     | none => false) &&
    (match (v.get ("DEFAULT")).bind CVal.asStr with
     | some s => isHex6 s
     | none => false)

/-- Whether a color role value that declares a `foreground` gives it a
hex value different from its `DEFAULT` hex value. -/
def roleContrastOk (v : CVal) : Bool :=
  match v.get ("foreground") with
  | none => true
  | some fg =>
    match fg.asStr, (v.get ("DEFAULT")).bind CVal.asStr with
    | some f, some d => !(f == d)
    | _, _ => false

/-- Whether a font role value is an ordered fallback list whose last
entry is a generic CSS family, `sans-serif` or `monospace`. -/
def fontFallbackOk : CVal → Bool
  | .list xs =>
    (match xs.getLast? with
     | some (CVal.str s) => (s == ("sans-serif")) || (s == ("monospace"))
     | _ => false)
  | _ => false

/-- The `height` declaration of step `step` (`from` or `to`) of the
keyframe named `name` in a keyframes object. -/
def kfHeight (kfs : List (String × CVal)) (name step : String) : Option String :=
  (((lookupStr kfs name).bind (fun v => v.get step)).bind
    (fun v => v.get ("height"))).bind CVal.asStr

/-- The exact rational number of rems declared under key `k` of a
radius-scale object. -/
def radiusQ (o : List (String × CVal)) (k : String) : Option ℚ :=
  ((lookupStr o k).bind CVal.asStr).bind remToQ

/-- Strict order on optional rationals: both present and `<` holds. -/
def optLtQ : Option ℚ → Option ℚ → Bool
  | some a, some b => decide (a < b)
  | _, _ => false

/-- C1: the exported configuration object has exactly the top-level keys
`darkMode`, `content`, `prefix`, `theme`, `plugins`, in source order,
and the required shapes: `darkMode` is a dark-mode strategy token,
`content` is the ordered list of glob patterns, `prefix` is the empty
string, `theme.container` holds a centering flag, a padding length and
a breakpoint mapping of length strings, `theme.extend` holds exactly
the sections `fontFamily`, `colors`, `borderRadius`, `keyframes`,
`animation`, and `plugins` is an ordered list of external plugin
references. -/
theorem config_top_level_shape :
    CVal.keys moduleExports
      = [("darkMode"), ("content"), ("prefix"), ("theme"), ("plugins")] ∧
    moduleExports.get ("darkMode") = some darkModeVal ∧
    isStrategyToken darkModeVal = true ∧
    moduleExports.get ("content") = some (.list (contentGlobs.map CVal.str)) ∧
    moduleExports.get ("prefix") = some (.str ("")) ∧
    moduleExports.getPath [("theme"), ("container")] = some (.obj containerKVs) ∧
    lookupStr containerKVs ("center") = some (.bool true) ∧
    lookupStr containerKVs ("padding") = some (.str ("2rem")) ∧
    isLength ("2rem") = true ∧
    lookupStr containerKVs ("screens") = some (.obj screensKVs) ∧
    (screensKVs.all (fun kv =>
      match kv.2.asStr with
      | some s => isLength s
      | none => false)) = true ∧
    moduleExports.getPath [("theme"), ("extend")] = some (.obj extendKVs) ∧
    extendKVs.map Prod.fst
      = [("fontFamily"), ("colors"), ("borderRadius"), ("keyframes"), ("animation")] ∧
    moduleExports.get ("plugins") = some (.list pluginsList) ∧
    (pluginsList.all isPluginRef) = true :=
  ⟨rfl, rfl, by decide, rfl, rfl, rfl, rfl, rfl, by decide, rfl,
   by decide, rfl, by decide, rfl, by decide⟩

/-- C2: every animation binding references a keyframe name that exists
among the declared keyframes; in particular the `accordion-down`
animation references the `accordion-down` keyframe. -/
theorem animation_refs_exist :
    moduleExports.getPath [("theme"), ("extend"), ("animation")]
      = some (.obj animationKVs) ∧
    moduleExports.getPath [("theme"), ("extend"), ("keyframes")]
      = some (.obj keyframesKVs) ∧
    animationRefsOk animationKVs keyframesKVs = true ∧
    ((lookupStr animationKVs ("accordion-down")).bind CVal.asStr).map animRefName
      = some ("accordion-down") ∧
    ((keyframesKVs.map Prod.fst).contains ("accordion-down")) = true :=
  ⟨rfl, rfl, by decide, by decide, by decide⟩

/-- C3: every color role that declares a `foreground` also declares a
`DEFAULT`, and both resolve to valid 6-digit RGB hex strings; the roles
doing so are exactly primary, secondary, accent, muted, destructive,
card and popover. -/
theorem color_foreground_pairs_hex :
    moduleExports.getPath [("theme"), ("extend"), ("colors")]
      = some (.obj colorsKVs) ∧
    (colorsKVs.all (fun kv => roleForegroundOk kv.2)) = true ∧
    ((colorsKVs.filter (fun kv => (kv.2.get ("foreground")).isSome)).map Prod.fst)
      = [("primary"), ("secondary"), ("accent"), ("muted"), ("destructive"),
         ("card"), ("popover")] :=
  ⟨rfl, by decide, by decide⟩

/-- C4: the border-radius scale is strictly increasing across sm, md,
lg: the declared values parse to the exact rationals 1/8, 3/8 and 1/2
rem, and sm < md < lg under exact rational comparison. -/
theorem border_radius_ordered :
    moduleExports.getPath [("theme"), ("extend"), ("borderRadius")]
      = some (.obj borderRadiusKVs) ∧
    radiusQ borderRadiusKVs ("sm") = some (Rat.divInt 1 8) ∧
    radiusQ borderRadiusKVs ("md") = some (Rat.divInt 3 8) ∧
    radiusQ borderRadiusKVs ("lg") = some (Rat.divInt 1 2) ∧
    Rat.divInt 1 8 = (1 : ℚ) / 8 ∧
    Rat.divInt 3 8 = (3 : ℚ) / 8 ∧
    Rat.divInt 1 2 = (1 : ℚ) / 2 ∧
    optLtQ (radiusQ borderRadiusKVs ("sm")) (radiusQ borderRadiusKVs ("md")) = true ∧
    optLtQ (radiusQ borderRadiusKVs ("md")) (radiusQ borderRadiusKVs ("lg")) = true :=
  ⟨rfl, by decide, by decide, by decide,
   by norm_num [Rat.divInt], by norm_num [Rat.divInt], by norm_num [Rat.divInt],
   by decide, by decide⟩

/-- C5: every glob pattern in the `content` list is a non-empty string
whose final path segment is a recognized file-extension wildcard. -/
theorem content_globs_wildcard :
    moduleExports.get ("content") = some (.list (contentGlobs.map CVal.str)) ∧
    (contentGlobs.all (fun g => (!(g == (""))) && endsInExtWildcard g)) = true :=
  ⟨rfl, by decide⟩

/-- C6: lookup in the token table is pure and total for every declared
key: every object literal of the configuration (all 23 of them, the
collection being stable under doubling the traversal depth) has
pairwise-distinct keys, and looking up any declared key yields a value. -/
theorem lookups_total :
    ((objsInFuel 16 moduleExports).all objTotal) = true ∧
    (objsInFuel 16 moduleExports).length = 23 ∧
    (objsInFuel 16 moduleExports).length = (objsInFuel 32 moduleExports).length :=
  ⟨by decide, by decide, by decide⟩

/-- C7: every font role in `fontFamily` (heading, body, mono) maps to an
ordered fallback list ending in a generic family, `sans-serif` or
`monospace`. -/
theorem font_family_generic_fallback :
    moduleExports.getPath [("theme"), ("extend"), ("fontFamily")]
      = some (.obj fontFamilyKVs) ∧
    fontFamilyKVs.map Prod.fst = [("heading"), ("body"), ("mono")] ∧
    (fontFamilyKVs.all (fun kv => fontFallbackOk kv.2)) = true :=
  ⟨rfl, by decide, by decide⟩

/-- C8: the plugins list contains exactly one entry, the external
reference `require("tailwindcss-animate")`, the accordion-animation
plugin dependency. -/
theorem plugins_single_accordion :
    moduleExports.get ("plugins") = some (.list pluginsList) ∧
    pluginsList = [CVal.plugin ("tailwindcss-animate")] ∧
    pluginsList.length = 1 ∧
    (pluginsList.all isPluginRef) = true :=
  ⟨rfl, rfl, by decide, by decide⟩

/-- C9: the `accordion-up` keyframe reverses `accordion-down` exactly,
on the single property `height`: up's `from` equals down's `to` and
up's `to` equals down's `from`, and every lifecycle step of both
keyframes declares exactly the property `height`. -/
theorem accordion_up_reverses_down :
    moduleExports.getPath [("theme"), ("extend"), ("keyframes")]
      = some (.obj keyframesKVs) ∧
    kfHeight keyframesKVs ("accordion-down") ("from") = some ("0") ∧
    kfHeight keyframesKVs ("accordion-down") ("to")
      = some ("var(--radix-accordion-content-height)") ∧
    kfHeight keyframesKVs ("accordion-up") ("from")
      = kfHeight keyframesKVs ("accordion-down") ("to") ∧
    kfHeight keyframesKVs ("accordion-up") ("to")
      = kfHeight keyframesKVs ("accordion-down") ("from") ∧
    ((keyframesKVs.map Prod.fst).all (fun name =>
      [("from"), ("to")].all (fun step =>
        (((lookupStr keyframesKVs name).bind (fun v => v.get step)).map CVal.keys)
          == some [("height")]))) = true :=
  ⟨rfl, by decide, by decide, by decide, by decide, by decide⟩

/-- C10: every color role that declares a `foreground` pairing gives it
a hex value different from its `DEFAULT`; the roles with such a pairing
are exactly primary, secondary, accent, muted, destructive, card and
popover. -/
theorem foreground_differs_from_default :
    moduleExports.getPath [("theme"), ("extend"), ("colors")]
      = some (.obj colorsKVs) ∧
    (colorsKVs.all (fun kv => roleContrastOk kv.2)) = true ∧
    ((colorsKVs.filter (fun kv => (kv.2.get ("foreground")).isSome)).map Prod.fst)
      = [("primary"), ("secondary"), ("accent"), ("muted"), ("destructive"),
         ("card"), ("popover")] :=
  ⟨rfl, by decide, by decide⟩
